import Mathlib

/-!
# twitterstream: the connection manager and the read loop

A shallow embedding of `src/twitterstream.go`.

* Go strings are `String`, byte slices read from the wire are lists of byte
  values (`Bytes`), `os.Error` is `Option String` (`none` is `nil`).
* `*streamConn` is an index into `World.heap`; `chan Tweet` is a channel
  number; a `*http.ClientConn` is named by the number of the `net.Dial` call
  whose socket it wraps.
* Everything the program does to the outside (dialling, writing a request,
  reading a response or a line, sleeping, closing, sending on a channel,
  starting a goroutine) is appended to `World.trace`.
* The network is a parameter `env`: the outcome of the `n`-th dial and of the
  exchange that follows it.  The functions of Go's library whose result
  depends on data (`base64`, `bytes.TrimSpace`, `json.Unmarshal`) and the
  type `Tweet`, declared outside `twitterstream.go`, are parameters (`Lib`).
-/

namespace Twitterstream

/-- A byte slice: the values of its bytes. -/
abbrev Bytes := List Nat

/-- The fields of `http.URL` the program uses. -/
structure URL where
  Raw : String
  Host : String
  deriving DecidableEq, Repr

def followUrl : URL := ⟨"http://stream.twitter.com/1/statuses/filter.json", "stream.twitter.com"⟩
def trackUrl : URL := ⟨"http://stream.twitter.com/1/statuses/filter.json", "stream.twitter.com"⟩
def sampleUrl : URL := ⟨"http://stream.twitter.com/1/statuses/sample.json", "stream.twitter.com"⟩

/-- The value of `var retryTimeout int64 = 5e9` (nanoseconds). -/
def retryTimeout : Int := 5000000000

/-- The fields of `http.Request` that `streamConn.connect` sets; `Header` lists
the map's entries in the order they are assigned. -/
structure Request where
  URL : URL
  Method : String
  Header : List (String × String)
  Body : Option String
  ContentLength : Int
  deriving DecidableEq, Repr

/-- The fields of `http.Response` the program reads; `Body` is what the server
delivers on this response before the stream ends or fails. -/
structure Response where
  Status : String
  StatusCode : Int
  Body : Bytes
  deriving DecidableEq, Repr

/-- What the network does with one dial and the exchange that follows it. -/
inductive Outcome where
  | dialErr (e : String)
  | writeErr (e : String)
  | readErr (e : String)
  | response (r : Response)
  deriving DecidableEq, Repr

/-- The handshake fails at the transport level: dial, write or read fails. -/
def Outcome.transportFailure : Outcome → Bool
  | .response _ => false
  | _ => true

/-- The library functions and the record type that `twitterstream.go` uses
and that are declared elsewhere. `Unmarshal line t` is the value of `t` after
`json.Unmarshal(line, &t)` together with the error the call returns. -/
structure Lib (Tweet : Type) where
  StdEncoding : String → String
  TrimSpace : Bytes → Bytes
  Unmarshal : Bytes → Tweet → Tweet × Option String
  zeroTweet : Tweet

/-- The struct `streamConn`. `clientConn = none` and `stream = none` are `nil`. -/
structure streamConn where
  clientConn : Option Nat
  url : URL
  stream : Option Nat
  authData : String
  postData : String
  stale : Bool
  deriving DecidableEq, Repr

/-- The zero value `var sc streamConn`. -/
def streamConn.zero : streamConn := ⟨none, ⟨"", ""⟩, none, "", "", false⟩

/-- What the program does to the outside, in order. -/
inductive Event (Tweet : Type) where
  | dial (addr : String) (ok : Bool)
  | write (cc : Nat) (req : Request) (ok : Bool)
  | read (cc : Nat) (resp : Option Response)
  | println (msg : String)
  | sleep (ns : Int)
  | readBytes (line : Bytes) (ok : Bool)
  | detach (cc : Nat)
  | closeTcp (sock : Nat)
  | send (ch : Nat) (t : Tweet)
  | go (conn : Nat) (resp : Response)
  deriving DecidableEq, Repr

/-- The state outside the `Client` struct: the allocated `streamConn` objects,
the number of dials and of channels made so far, the client connections
already detached from their socket by `ClientConn.Close`, and the trace. -/
structure World (Tweet : Type) where
  heap : List streamConn
  dials : Nat
  chans : Nat
  detached : List Nat
  trace : List (Event Tweet)
  deriving DecidableEq, Repr

/-- The struct `Client` (the mutex `connLock` holds no data). -/
structure Client where
  Username : String
  Password : String
  Stream : Nat
  conn : Option Nat
  deriving DecidableEq, Repr

/-- A run-time fault of the Go program. -/
inductive Fault where
  | nilDereference
  deriving DecidableEq, Repr

variable {Tweet : Type}

/-- Append an event to the trace. -/
def World.emit (w : World Tweet) (e : Event Tweet) : World Tweet :=
  { w with trace := w.trace ++ [e] }

/-- Assign through a `*streamConn`. -/
def World.update (w : World Tweet) (p : Nat) (f : streamConn → streamConn) : World Tweet :=
  { w with heap := w.heap.modify f p }

/-- The method `streamConn.Close` on the object itself. -/
def streamConn.Close (conn : streamConn) : streamConn :=
  { conn with stale := true }

/-- The request that `streamConn.connect` builds. -/
def streamConn.request (conn : streamConn) : Request :=
  let req : Request := ⟨conn.url, "GET", [("Authorization", "Basic " ++ conn.authData)], none, 0⟩
  if conn.postData ≠ "" then
    { req with
      Method := "POST"
      Body := some conn.postData
      ContentLength := (conn.postData.utf8ByteSize : Int)
      Header := req.Header ++ [("Content-Type", "application/x-www-form-urlencoded")] }
  else req

/-- The method `streamConn.connect`: the handshake. Returns the object after
the call, the world after the call and `(resp, err)`. -/
def streamConn.connect (env : Nat → Outcome) (conn : streamConn) (w : World Tweet) :
    streamConn × World Tweet × Except String Response :=
  if conn.stale then (conn, w, .error "Stale connection")
  else
    let n := w.dials
    let addr := conn.url.Host ++ ":80"
    match env n with
    | .dialErr e => (conn, { w with dials := n + 1 }.emit (.dial addr false), .error e)
    | .writeErr e =>
        let conn := { conn with clientConn := some n }
        (conn, ({ w with dials := n + 1 }.emit (.dial addr true)).emit (.write n conn.request false),
          .error e)
    | .readErr e =>
        let conn := { conn with clientConn := some n }
        (conn, (({ w with dials := n + 1 }.emit (.dial addr true)).emit
          (.write n conn.request true)).emit (.read n none), .error e)
    | .response r =>
        let conn := { conn with clientConn := some n }
        (conn, (({ w with dials := n + 1 }.emit (.dial addr true)).emit
          (.write n conn.request true)).emit (.read n (some r)), .ok r)

/-- The function `NewClient`; `make(chan Tweet)` takes the next channel number. -/
def NewClient (w : World Tweet) (username password : String) : Client × World Tweet :=
  (⟨username, password, w.chans, none⟩, { w with chans := w.chans + 1 })

/-- The function `encodedAuth`. -/
def encodedAuth (lib : Lib Tweet) (user pwd : String) : String :=
  lib.StdEncoding (user ++ ":" ++ pwd)

/-- The method `Client.connect`. Returns `err`, the client and the world. -/
def Client.connect (lib : Lib Tweet) (env : Nat → Outcome) (c : Client) (w : World Tweet)
    (url : URL) (body : String) : Option String × Client × World Tweet :=
  if c.Username = "" ∨ c.Password = "" then
    (some "The username or password is invalid", c, w)
  else
    let sc := streamConn.zero
    let sc := { sc with authData := encodedAuth lib c.Username c.Password }
    let sc := { sc with postData := body }
    let sc := { sc with url := url }
    match streamConn.connect env sc w with
    | (_, w, .error e) => (some e, c, w)
    | (sc, w, .ok resp) =>
        if resp.StatusCode ≠ 200 then
          (some ("Twitterstream HTTP Error" ++ resp.Status), c, w)
        else
          let w := match c.conn with
            | some old => w.update old streamConn.Close
            | none => w
          let p := w.heap.length
          let w := { w with heap := w.heap ++ [sc] }
          let c := { c with conn := some p }
          let w := w.update p (fun sc => { sc with stream := some c.Stream })
          (none, c, w.emit (.go p resp))

/-- The decimal rendering `strconv.Itoa64`. -/
def Itoa64 (id : Int) : String := toString id

/-- The loop `for i, x := range xs` of `Follow` and of `Track`: write the
rendering of `x`, then a comma unless `i` is `len(xs)-1`. -/
def writeList {α : Type} (render : α → String) (len : Int) : Int → List α → String → String
  | _, [], body => body
  | i, x :: xs, body =>
      let body := body ++ render x
      let body := if i ≠ len - 1 then body ++ "," else body
      writeList render len (i + 1) xs body

/-- The body that `Follow` builds. -/
def Follow.body (ids : List Int) : String :=
  writeList Itoa64 ids.length 0 ids ("" ++ "follow=")

/-- The body that `Track` builds. -/
def Track.body (topics : List String) : String :=
  writeList id topics.length 0 topics ("" ++ "track=")

/-- The method `Client.Follow`. -/
def Client.Follow (lib : Lib Tweet) (env : Nat → Outcome) (c : Client) (w : World Tweet)
    (ids : List Int) : Option String × Client × World Tweet :=
  Client.connect lib env c w followUrl (Follow.body ids)

/-- The method `Client.Track`. -/
def Client.Track (lib : Lib Tweet) (env : Nat → Outcome) (c : Client) (w : World Tweet)
    (topics : List String) : Option String × Client × World Tweet :=
  Client.connect lib env c w trackUrl (Track.body topics)

/-- The method `Client.Sample`. -/
def Client.Sample (lib : Lib Tweet) (env : Nat → Outcome) (c : Client) (w : World Tweet) :
    Option String × Client × World Tweet :=
  Client.connect lib env c w sampleUrl ""

/-- The method `Client.Close`: `c.conn.stale` dereferences `c.conn`. -/
def Client.Close (c : Client) (w : World Tweet) : Except Fault (World Tweet) :=
  match c.conn with
  | none => .error .nilDereference
  | some p =>
      match w.heap[p]? with
      | none => .error .nilDereference
      | some sc => if sc.stale then .ok w else .ok (w.update p streamConn.Close)

/-- The method `bufio.Reader.ReadBytes` on the unread bytes of the body:
the line up to and including the first `delim`, the bytes left unread, and
whether an error is returned (no `delim` before the end of the body). -/
def ReadBytes (delim : Nat) : Bytes → Bytes × Bytes × Bool
  | [] => ([], [], true)
  | b :: bs =>
      if b = delim then ([b], bs, false)
      else
        let r := ReadBytes delim bs
        (b :: r.1, r.2.1, r.2.2)

/-- The method `http.ClientConn.Close`: returns the underlying socket and
detaches it, so that a later call returns `nil`. -/
def ClientConn.Close (cc : Nat) (w : World Tweet) : Option Nat × World Tweet :=
  if cc ∈ w.detached then (none, w.emit (.detach cc))
  else (some cc, { w with detached := cc :: w.detached }.emit (.detach cc))

/-- What other goroutines do to the connection of a read loop during one
iteration: whether `conn.Close()` has run on it just before the test of
line 78, of line 87, and of line 38 (inside `conn.connect()`). -/
structure Interf where
  atTop : Bool
  atErr : Bool
  atConnect : Bool
  deriving DecidableEq, Repr

/-- No other goroutine touches the connection. -/
def Interf.quiet : Interf := ⟨false, false, false⟩

/-- Another goroutine runs `conn.Close()` on `p` when `b` holds. -/
def World.interfere (w : World Tweet) (p : Nat) (b : Bool) : World Tweet :=
  if b then w.update p streamConn.Close else w

/-- Where a read loop stands. `blocked`: in a send on a nil channel. -/
inductive Status where
  | running
  | exited
  | blocked
  | faulted
  deriving DecidableEq, Repr

/-- A read loop: its status, the unread bytes of `reader`, and the world. -/
structure Loop (Tweet : Type) where
  status : Status
  reader : Bytes
  world : World Tweet
  deriving DecidableEq, Repr

/-- One iteration of the `for` loop of `streamConn.readStream` on the
connection `p`. -/
def readStream.iter (lib : Lib Tweet) (env : Nat → Outcome) (p : Nat) (i : Interf)
    (reader : Bytes) (w : World Tweet) : Loop Tweet :=
  let w := w.interfere p i.atTop
  match w.heap[p]? with
  | none => ⟨.faulted, reader, w⟩
  | some conn =>
      if conn.stale then
        match conn.clientConn with
        | none => ⟨.faulted, reader, w⟩
        | some cc =>
            match ClientConn.Close cc w with
            | (some tcpConn, w) => ⟨.exited, reader, w.emit (.closeTcp tcpConn)⟩
            | (none, w) => ⟨.exited, reader, w⟩
      else
        match ReadBytes 10 reader with
        | (line, reader, true) =>
            let w := (w.emit (.readBytes line false)).interfere p i.atErr
            match w.heap[p]? with
            | none => ⟨.faulted, reader, w⟩
            | some conn =>
                if conn.stale then ⟨.running, reader, w⟩
                else
                  let w := w.interfere p i.atConnect
                  match w.heap[p]? with
                  | none => ⟨.faulted, reader, w⟩
                  | some conn =>
                      match streamConn.connect env conn w with
                      | (conn, w, .error err) =>
                          let w := w.update p (fun c => { c with clientConn := conn.clientConn })
                          ⟨.running, reader, (w.emit (.println err)).emit (.sleep retryTimeout)⟩
                      | (conn, w, .ok resp) =>
                          let w := w.update p (fun c => { c with clientConn := conn.clientConn })
                          if resp.StatusCode ≠ 200 then ⟨.running, reader, w⟩
                          else ⟨.running, resp.Body, w⟩
        | (line, reader, false) =>
            let w := w.emit (.readBytes line true)
            let line := lib.TrimSpace line
            if line.length = 0 then ⟨.running, reader, w⟩
            else
              let tweet := (lib.Unmarshal line lib.zeroTweet).1
              match conn.stream with
              | none => ⟨.blocked, reader, w⟩
              | some ch => ⟨.running, reader, w.emit (.send ch tweet)⟩

/-- The `for` loop of `streamConn.readStream`, one iteration for each entry
of the schedule, as long as the loop is running. -/
def readStream.run (lib : Lib Tweet) (env : Nat → Outcome) (p : Nat) :
    List Interf → Bytes → World Tweet → Loop Tweet
  | [], reader, w => ⟨.running, reader, w⟩
  | i :: sched, reader, w =>
      let l := readStream.iter lib env p i reader w
      match l.status with
      | .running => readStream.run lib env p sched l.reader l.world
      | _ => l

/-- The method `streamConn.readStream`: the reader starts on `resp.Body`. -/
def streamConn.readStream (lib : Lib Tweet) (env : Nat → Outcome) (p : Nat) (resp : Response)
    (sched : List Interf) (w : World Tweet) : Loop Tweet :=
  readStream.run lib env p sched resp.Body w

/-- The connection `p` is as `Client.connect` hands it to `readStream`: it
exists, its `clientConn` is set and its `stream` is set. -/
def World.ready (w : World Tweet) (p : Nat) : Bool :=
  match w.heap[p]? with
  | some conn => conn.clientConn.isSome && conn.stream.isSome
  | none => false

/-- The records sent on channels, in order, with the channel of each. -/
def sends : List (Event Tweet) → List (Nat × Tweet)
  | [] => []
  | .send ch t :: es => (ch, t) :: sends es
  | _ :: es => sends es

/-- The goroutines started, in order: the connection and response of each. -/
def spawns : List (Event Tweet) → List (Nat × Response)
  | [] => []
  | .go p r :: es => (p, r) :: spawns es
  | _ :: es => spawns es

/-- The dial attempts, in order: the address and whether the dial succeeds. -/
def dialled : List (Event Tweet) → List (String × Bool)
  | [] => []
  | .dial a ok :: es => (a, ok) :: dialled es
  | _ :: es => dialled es

/-- The lines read, in order. -/
def linesRead : List (Event Tweet) → List Bytes
  | [] => []
  | .readBytes l _ :: es => l :: linesRead es
  | _ :: es => linesRead es

/-- The wire form of a sequence of lines: each followed by a line feed. -/
def wire (lines : List Bytes) : Bytes := (lines.map (· ++ [10])).flatten

/-- A reconnect attempt (a dial, with its address) or a sleep (with its
duration in nanoseconds). -/
inductive Pace where
  | attempt (addr : String)
  | pause (ns : Int)
  deriving DecidableEq, Repr

/-- The dials and the sleeps of a trace, in order. -/
def pacing : List (Event Tweet) → List Pace
  | [] => []
  | .dial a _ :: es => .attempt a :: pacing es
  | .sleep d :: es => .pause d :: pacing es
  | _ :: es => pacing es

/-- The bytes of an ASCII string. -/
def bytes (s : String) : Bytes := s.toList.map Char.toNat

/-! ## An instance of the parameters, for examples -/

/-- A record type for examples: the text of the record. -/
structure TextTweet where
  Text : Bytes
  deriving DecidableEq, Repr

/-- ASCII white space: tab, line feed, vertical tab, form feed, carriage
return, space. -/
def asciiSpace (b : Nat) : Bool :=
  b = 9 || b = 10 || b = 11 || b = 12 || b = 13 || b = 32

/-- Trimming of ASCII white space at both ends. -/
def asciiTrimSpace (l : Bytes) : Bytes :=
  ((l.dropWhile asciiSpace).reverse.dropWhile asciiSpace).reverse

/-- A decoder for examples: a line of the form `{"text":"..."}` sets `Text`;
any other line is an error and leaves the record as it is. -/
def textUnmarshal (line : Bytes) (t : TextTweet) : TextTweet × Option String :=
  let opening := bytes "\x7b\"text\":\""
  let closing := bytes "\"\x7d"
  if opening.length + closing.length ≤ line.length
      ∧ line.take opening.length = opening
      ∧ line.drop (line.length - closing.length) = closing then
    (⟨(line.drop opening.length).take (line.length - opening.length - closing.length)⟩, none)
  else (t, some "invalid character")

/-- The example library: the encoding of credentials is left as the identity. -/
def textLib : Lib TextTweet := ⟨fun s => s, asciiTrimSpace, textUnmarshal, ⟨[]⟩⟩

/-- A network on which every handshake is answered `200 OK` with `body`. -/
def envOK (body : Bytes) : Nat → Outcome := fun _ => .response ⟨"200 OK", 200, body⟩

/-- A network on which every handshake is answered with `status`. -/
def envStatus (status : String) (code : Int) (body : Bytes) : Nat → Outcome :=
  fun _ => .response ⟨status, code, body⟩

/-- A network on which every dial fails. -/
def envDown : Nat → Outcome := fun _ => .dialErr "connection refused"

/-- An Active connection as `Client.connect` installs it for
`Track(["golang","rust"])`: first dial, channel 0. -/
def trackConn : streamConn :=
  ⟨some 0, trackUrl, some 0, "user:pass", "track=golang,rust", false⟩

/-- The world in which `trackConn` is the only connection. -/
def trackWorld : World TextTweet := ⟨[trackConn], 1, 1, [], []⟩

/-- The lines of the scenario: a record, a blank line, a record. -/
def helloWorldLines : List Bytes :=
  [bytes "\x7b\"text\":\"hello\"\x7d", [], bytes "\x7b\"text\":\"world\"\x7d"]

/-- The response of the scenario. -/
def helloWorldResp : Response :=
  ⟨"200 OK", 200, bytes "\x7b\"text\":\"hello\"\x7d\n\n\x7b\"text\":\"world\"\x7d\n"⟩

/-! ## Helper lemmas -/

theorem intercalate_go_cons (s acc a : String) (as : List String) :
    String.intercalate.go acc s (a :: as) = acc ++ s ++ String.intercalate.go a s as := by
  induction as generalizing acc a with
  | nil => simp [String.intercalate.go]
  | cons b bs ih =>
      rw [String.intercalate.go, ih, ih a]
      simp [String.append_assoc]

theorem intercalate_cons_cons (s a b : String) (as : List String) :
    s.intercalate (a :: b :: as) = a ++ s ++ s.intercalate (b :: as) := by
  simp [String.intercalate, intercalate_go_cons]

theorem writeList_eq {α : Type} (render : α → String) (len : Int) (xs : List α) (i : Int)
    (body : String) (h : i + xs.length = len) :
    writeList render len i xs body = body ++ ",".intercalate (xs.map render) := by
  induction xs generalizing i body with
  | nil => simp [writeList, String.intercalate]
  | cons x xs ih =>
      cases xs with
      | nil =>
          have hi : i = len - 1 := by simp at h; omega
          simp [writeList, hi, String.intercalate, String.intercalate.go]
      | cons y ys =>
          have hi : i ≠ len - 1 := by simp at h; omega
          rw [writeList]
          simp only [hi, ne_eq, not_false_eq_true, if_true]
          rw [ih (i + 1) _ (by simp at h ⊢; omega)]
          simp [intercalate_cons_cons, String.append_assoc]

theorem Follow_body_eq (ids : List Int) :
    Follow.body ids = "follow=" ++ ",".intercalate (ids.map Itoa64) := by
  unfold Follow.body
  rw [writeList_eq Itoa64 _ ids 0 _ (by simp)]
  simp

theorem Track_body_eq (topics : List String) :
    Track.body topics = "track=" ++ ",".intercalate topics := by
  unfold Track.body
  rw [writeList_eq id _ topics 0 _ (by simp)]
  simp

@[simp] theorem emit_heap (w : World Tweet) (e : Event Tweet) : (w.emit e).heap = w.heap := rfl

@[simp] theorem emit_trace (w : World Tweet) (e : Event Tweet) :
    (w.emit e).trace = w.trace ++ [e] := rfl

@[simp] theorem emit_dials (w : World Tweet) (e : Event Tweet) : (w.emit e).dials = w.dials := rfl

@[simp] theorem emit_detached (w : World Tweet) (e : Event Tweet) :
    (w.emit e).detached = w.detached := rfl

@[simp] theorem update_trace (w : World Tweet) (p : Nat) (f : streamConn → streamConn) :
    (w.update p f).trace = w.trace := rfl

@[simp] theorem update_dials (w : World Tweet) (p : Nat) (f : streamConn → streamConn) :
    (w.update p f).dials = w.dials := rfl

@[simp] theorem update_detached (w : World Tweet) (p : Nat) (f : streamConn → streamConn) :
    (w.update p f).detached = w.detached := rfl

theorem update_get (w : World Tweet) (p q : Nat) (f : streamConn → streamConn) :
    (w.update p f).heap[q]? = if p = q then w.heap[q]?.map f else w.heap[q]? := by
  by_cases h : p = q <;> simp [World.update, List.getElem?_modify, h]

theorem spawns_append (xs ys : List (Event Tweet)) :
    spawns (xs ++ ys) = spawns xs ++ spawns ys := by
  induction xs with
  | nil => rfl
  | cons e es ih => cases e <;> simp [spawns, ih]

theorem sends_append (xs ys : List (Event Tweet)) :
    sends (xs ++ ys) = sends xs ++ sends ys := by
  induction xs with
  | nil => rfl
  | cons e es ih => cases e <;> simp [sends, ih]

theorem dialled_append (xs ys : List (Event Tweet)) :
    dialled (xs ++ ys) = dialled xs ++ dialled ys := by
  induction xs with
  | nil => rfl
  | cons e es ih => cases e <;> simp [dialled, ih]

theorem pacing_append (xs ys : List (Event Tweet)) :
    pacing (xs ++ ys) = pacing xs ++ pacing ys := by
  induction xs with
  | nil => rfl
  | cons e es ih => cases e <;> simp [pacing, ih]

theorem linesRead_append (xs ys : List (Event Tweet)) :
    linesRead (xs ++ ys) = linesRead xs ++ linesRead ys := by
  induction xs with
  | nil => rfl
  | cons e es ih => cases e <;> simp [linesRead, ih]

/-! ## The connection manager -/

/-- C1: with an empty `Username` or an empty `Password`, `connect` (for every
url and body) and each of `Follow`, `Track` and `Sample` (for every argument)
return the error of line 146 and leave the client and the whole world as
they were: nothing is dialled or written (the trace and the dial count are
part of the world) and `c.conn` is unchanged. -/
theorem connect_invalid_credentials (lib : Lib Tweet) (env : Nat → Outcome) (c : Client)
    (w : World Tweet) (h : c.Username = "" ∨ c.Password = "")
    (url : URL) (body : String) (ids : List Int) (topics : List String) :
    Client.connect lib env c w url body = (some "The username or password is invalid", c, w)
    ∧ Client.Follow lib env c w ids = (some "The username or password is invalid", c, w)
    ∧ Client.Track lib env c w topics = (some "The username or password is invalid", c, w)
    ∧ Client.Sample lib env c w = (some "The username or password is invalid", c, w) := by
  simp [Client.Follow, Client.Track, Client.Sample, Client.connect, h]

theorem connect_invalid_credentials_witness :
    (("" : String) = "" ∨ "secret" = "")
    ∧ Client.connect textLib (envOK []) ⟨"", "secret", 0, some 0⟩
        (⟨[streamConn.zero], 1, 1, [], []⟩ : World TextTweet) trackUrl "track=go"
      = (some "The username or password is invalid", ⟨"", "secret", 0, some 0⟩,
          ⟨[streamConn.zero], 1, 1, [], []⟩)
    ∧ Client.Follow textLib (envOK []) ⟨"", "secret", 0, some 0⟩
        (⟨[streamConn.zero], 1, 1, [], []⟩ : World TextTweet) [12, 34]
      = (some "The username or password is invalid", ⟨"", "secret", 0, some 0⟩,
          ⟨[streamConn.zero], 1, 1, [], []⟩)
    ∧ Client.Track textLib (envOK []) ⟨"", "secret", 0, some 0⟩
        (⟨[streamConn.zero], 1, 1, [], []⟩ : World TextTweet) ["golang", "rust"]
      = (some "The username or password is invalid", ⟨"", "secret", 0, some 0⟩,
          ⟨[streamConn.zero], 1, 1, [], []⟩)
    ∧ Client.Sample textLib (envOK []) ⟨"", "secret", 0, some 0⟩
        (⟨[streamConn.zero], 1, 1, [], []⟩ : World TextTweet)
      = (some "The username or password is invalid", ⟨"", "secret", 0, some 0⟩,
          ⟨[streamConn.zero], 1, 1, [], []⟩) :=
  ⟨Or.inl rfl, connect_invalid_credentials textLib (envOK []) ⟨"", "secret", 0, some 0⟩
    ⟨[streamConn.zero], 1, 1, [], []⟩ (Or.inl rfl) trackUrl "track=go" [12, 34]
    ["golang", "rust"]⟩

/-- C2: when the next handshake fails at the transport level (the dial, the
write or the read fails) or is answered with a status outside 200..299,
`connect` returns an error; the client, hence `c.conn`, is what it was; every
`streamConn` object, hence the `stale` flag of the previous connection, is
what it was; and no read loop is started. -/
theorem connect_atomic_on_failure (lib : Lib Tweet) (env : Nat → Outcome) (c : Client)
    (w : World Tweet) (url : URL) (body : String)
    (h : (env w.dials).transportFailure = true
      ∨ ∃ r, env w.dials = .response r ∧ ¬ (200 ≤ r.StatusCode ∧ r.StatusCode ≤ 299)) :
    (Client.connect lib env c w url body).1 ≠ none
    ∧ (Client.connect lib env c w url body).2.1 = c
    ∧ (Client.connect lib env c w url body).2.2.heap = w.heap
    ∧ spawns (Client.connect lib env c w url body).2.2.trace = spawns w.trace := by
  by_cases hc : c.Username = "" ∨ c.Password = ""
  · simp [Client.connect, hc]
  · rcases h with h | ⟨r, hr, hs⟩
    · cases ho : env w.dials with
      | response r => simp [ho, Outcome.transportFailure] at h
      | dialErr e =>
          simp [Client.connect, hc, streamConn.connect, streamConn.zero, ho, World.emit,
            spawns_append, spawns]
      | writeErr e =>
          simp [Client.connect, hc, streamConn.connect, streamConn.zero, ho, World.emit,
            spawns_append, spawns]
      | readErr e =>
          simp [Client.connect, hc, streamConn.connect, streamConn.zero, ho, World.emit,
            spawns_append, spawns]
    · have h200 : r.StatusCode ≠ 200 := by
        intro h200
        exact hs (by omega)
      simp [Client.connect, hc, streamConn.connect, streamConn.zero, hr, World.emit,
        spawns_append, spawns, h200]

theorem connect_atomic_on_failure_witness :
    ((envStatus "401 Unauthorized" 401 [] (⟨[streamConn.zero], 1, 1, [], []⟩ :
          World TextTweet).dials).transportFailure = true
      ∨ ∃ r, envStatus "401 Unauthorized" 401 [] (⟨[streamConn.zero], 1, 1, [], []⟩ :
          World TextTweet).dials = .response r ∧ ¬ (200 ≤ r.StatusCode ∧ r.StatusCode ≤ 299))
    ∧ (Client.connect textLib (envStatus "401 Unauthorized" 401 []) ⟨"user", "pass", 0, some 0⟩
        (⟨[streamConn.zero], 1, 1, [], []⟩ : World TextTweet) trackUrl "track=golang,rust").1
        ≠ none
    ∧ (Client.connect textLib (envStatus "401 Unauthorized" 401 []) ⟨"user", "pass", 0, some 0⟩
        (⟨[streamConn.zero], 1, 1, [], []⟩ : World TextTweet) trackUrl "track=golang,rust").2.1
        = ⟨"user", "pass", 0, some 0⟩
    ∧ (Client.connect textLib (envStatus "401 Unauthorized" 401 []) ⟨"user", "pass", 0, some 0⟩
        (⟨[streamConn.zero], 1, 1, [], []⟩ : World TextTweet) trackUrl
        "track=golang,rust").2.2.heap = [streamConn.zero]
    ∧ spawns (Client.connect textLib (envStatus "401 Unauthorized" 401 [])
        ⟨"user", "pass", 0, some 0⟩ (⟨[streamConn.zero], 1, 1, [], []⟩ : World TextTweet)
        trackUrl "track=golang,rust").2.2.trace = [] :=
  ⟨Or.inr ⟨⟨"401 Unauthorized", 401, []⟩, rfl, by decide⟩,
    connect_atomic_on_failure textLib (envStatus "401 Unauthorized" 401 [])
      ⟨"user", "pass", 0, some 0⟩ ⟨[streamConn.zero], 1, 1, [], []⟩ trackUrl
      "track=golang,rust" (Or.inr ⟨⟨"401 Unauthorized", 401, []⟩, rfl, by decide⟩)⟩

/-- C3: with both credentials non-empty and the handshake answered with
status 200, `connect` returns nil; the previously active connection, if any,
has `stale = true`; `c.conn` points to a newly allocated connection with
`stale = false`, the given url and body, and `stream` equal to the client's
own `Stream`, which is unchanged; and exactly one read loop is started, on
that connection and on the response of the handshake. -/
theorem connect_success (lib : Lib Tweet) (env : Nat → Outcome) (c : Client)
    (w : World Tweet) (url : URL) (body : String) (r : Response)
    (hcred : c.Username ≠ "" ∧ c.Password ≠ "")
    (hresp : env w.dials = .response r) (h200 : r.StatusCode = 200)
    (hold : ∀ old, c.conn = some old → old < w.heap.length) :
    (Client.connect lib env c w url body).1 = none
    ∧ (∀ old, c.conn = some old →
        ∃ sc, (Client.connect lib env c w url body).2.2.heap[old]? = some sc ∧ sc.stale = true)
    ∧ (Client.connect lib env c w url body).2.1.conn = some w.heap.length
    ∧ (Client.connect lib env c w url body).2.1.Stream = c.Stream
    ∧ (∃ sc, (Client.connect lib env c w url body).2.2.heap[w.heap.length]? = some sc
        ∧ sc.stale = false ∧ sc.url = url ∧ sc.postData = body ∧ sc.stream = some c.Stream)
    ∧ spawns (Client.connect lib env c w url body).2.2.trace
        = spawns w.trace ++ [(w.heap.length, r)] := by
  have hc : ¬ (c.Username = "" ∨ c.Password = "") := by
    rintro (h | h)
    · exact hcred.1 h
    · exact hcred.2 h
  cases hconn : c.conn with
  | none =>
      simp [Client.connect, hc, streamConn.connect, streamConn.zero, hresp, h200, hconn,
        World.emit, World.update, spawns_append, spawns, List.getElem?_modify]
  | some old =>
      have hlt : old < w.heap.length := hold old hconn
      have hlt2 : old < (List.modify streamConn.Close old w.heap).length := by simpa using hlt
      simp [Client.connect, hc, streamConn.connect, streamConn.zero, hresp, h200, hconn,
        World.emit, World.update, spawns_append, spawns, List.getElem?_append_left, hlt, hlt2,
        List.getElem?_modify, streamConn.Close]
      split <;> rfl

theorem connect_success_witness :
    (("user" : String) ≠ "" ∧ ("pass" : String) ≠ "")
    ∧ (Client.connect textLib (envOK (bytes "\n")) ⟨"user", "pass", 0, some 0⟩
        (⟨[streamConn.zero], 1, 1, [], []⟩ : World TextTweet) trackUrl "track=golang,rust").1
        = none
    ∧ (∀ old, (⟨"user", "pass", 0, some 0⟩ : Client).conn = some old →
        ∃ sc, (Client.connect textLib (envOK (bytes "\n")) ⟨"user", "pass", 0, some 0⟩
          (⟨[streamConn.zero], 1, 1, [], []⟩ : World TextTweet) trackUrl
          "track=golang,rust").2.2.heap[old]? = some sc ∧ sc.stale = true)
    ∧ (Client.connect textLib (envOK (bytes "\n")) ⟨"user", "pass", 0, some 0⟩
        (⟨[streamConn.zero], 1, 1, [], []⟩ : World TextTweet) trackUrl
        "track=golang,rust").2.1.conn = some 1
    ∧ (Client.connect textLib (envOK (bytes "\n")) ⟨"user", "pass", 0, some 0⟩
        (⟨[streamConn.zero], 1, 1, [], []⟩ : World TextTweet) trackUrl
        "track=golang,rust").2.1.Stream = 0
    ∧ (∃ sc, (Client.connect textLib (envOK (bytes "\n")) ⟨"user", "pass", 0, some 0⟩
          (⟨[streamConn.zero], 1, 1, [], []⟩ : World TextTweet) trackUrl
          "track=golang,rust").2.2.heap[1]? = some sc
        ∧ sc.stale = false ∧ sc.url = trackUrl ∧ sc.postData = "track=golang,rust"
        ∧ sc.stream = some 0)
    ∧ spawns (Client.connect textLib (envOK (bytes "\n")) ⟨"user", "pass", 0, some 0⟩
        (⟨[streamConn.zero], 1, 1, [], []⟩ : World TextTweet) trackUrl
        "track=golang,rust").2.2.trace = [] ++ [(1, ⟨"200 OK", 200, bytes "\n"⟩)] :=
  ⟨⟨by decide, by decide⟩,
    connect_success textLib (envOK (bytes "\n")) ⟨"user", "pass", 0, some 0⟩
      ⟨[streamConn.zero], 1, 1, [], []⟩ trackUrl "track=golang,rust"
      ⟨"200 OK", 200, bytes "\n"⟩ ⟨by decide, by decide⟩ rfl rfl
      (by intro old h; cases h; decide)⟩

/-- C6: on a client on which no filter-change call has succeeded (`conn` is
nil), `Close` evaluates `c.conn.stale` through the nil pointer and faults;
it is not a no-op there. -/
theorem Close_without_connection_faults (w : World Tweet) (username password : String) :
    Client.Close (NewClient w username password).1 (NewClient w username password).2
      = .error .nilDereference := by
  simp [Client.Close, NewClient]

/-- C7: `Follow` calls `connect` on `followUrl` with `"follow="` and the
decimal renderings of the ids joined by commas; `Track` calls `connect` on
`trackUrl` with `"track="` and the topics joined by commas; `Sample` calls
`connect` on `sampleUrl` with the empty body. The body of the empty list is
the bare key, and `Track(["golang","rust"])` sends `"track=golang,rust"`. -/
theorem filter_bodies (lib : Lib Tweet) (env : Nat → Outcome) (c : Client) (w : World Tweet)
    (ids : List Int) (topics : List String) :
    Client.Follow lib env c w ids
      = Client.connect lib env c w followUrl ("follow=" ++ ",".intercalate (ids.map Itoa64))
    ∧ Client.Track lib env c w topics
      = Client.connect lib env c w trackUrl ("track=" ++ ",".intercalate topics)
    ∧ Client.Sample lib env c w = Client.connect lib env c w sampleUrl ""
    ∧ Follow.body [] = "follow="
    ∧ Track.body [] = "track="
    ∧ Follow.body [12, -3, 45] = "follow=12,-3,45"
    ∧ Track.body ["golang", "rust"] = "track=golang,rust" := by
  refine ⟨?_, ?_, rfl, ?_, ?_, ?_, ?_⟩
  · simp [Client.Follow, Follow_body_eq]
  · simp [Client.Track, Track_body_eq]
  · decide
  · decide
  · decide
  · decide

/-! ## The read loop -/

theorem ReadBytes_line (l rest : Bytes) (h : 10 ∉ l) :
    ReadBytes 10 (l ++ 10 :: rest) = (l ++ [10], rest, false) := by
  induction l with
  | nil => simp [ReadBytes]
  | cons b bs ih =>
      have hb : b ≠ 10 := by
        intro hb
        exact h (by simp [hb])
      have hbs : 10 ∉ bs := by
        intro hbs
        exact h (by simp [hbs])
      simp [ReadBytes, hb, ih hbs]

theorem ReadBytes_err (bs : Bytes) (h : (ReadBytes 10 bs).2.2 = true) :
    ReadBytes 10 bs = (bs, [], true) := by
  induction bs with
  | nil => simp [ReadBytes]
  | cons b bs ih =>
      by_cases hb : b = 10
      · simp [ReadBytes, hb] at h
      · simp [ReadBytes, hb] at h
        simp [ReadBytes, hb, ih h]

/-- One iteration on an Active connection whose reader holds a whole line. -/
theorem iter_line (lib : Lib Tweet) (env : Nat → Outcome) (p : Nat) (i : Interf)
    (conn : streamConn) (l rest : Bytes) (w : World Tweet)
    (hi : i.atTop = false) (hp : w.heap[p]? = some conn) (hactive : conn.stale = false)
    (hl : 10 ∉ l) :
    readStream.iter lib env p i (l ++ 10 :: rest) w =
      if (lib.TrimSpace (l ++ [10])).length = 0 then
        ⟨.running, rest, w.emit (.readBytes (l ++ [10]) true)⟩
      else
        match conn.stream with
        | none => ⟨.blocked, rest, w.emit (.readBytes (l ++ [10]) true)⟩
        | some ch =>
            ⟨.running, rest, (w.emit (.readBytes (l ++ [10]) true)).emit
              (.send ch (lib.Unmarshal (lib.TrimSpace (l ++ [10])) lib.zeroTweet).1)⟩ := by
  simp only [readStream.iter, hi, World.interfere, ReadBytes_line l rest hl]
  simp [hp, hactive]

theorem run_cons (lib : Lib Tweet) (env : Nat → Outcome) (p : Nat) (i : Interf)
    (sched : List Interf) (reader : Bytes) (w : World Tweet) :
    readStream.run lib env p (i :: sched) reader w =
      match (readStream.iter lib env p i reader w).status with
      | .running => readStream.run lib env p sched (readStream.iter lib env p i reader w).reader
          (readStream.iter lib env p i reader w).world
      | _ => readStream.iter lib env p i reader w := rfl

theorem wire_cons (l : Bytes) (ls : List Bytes) (rest : Bytes) :
    wire (l :: ls) ++ rest = l ++ 10 :: (wire ls ++ rest) := by
  simp [wire]

/-- The loop on an Active connection, left alone, over a reader that starts
with whole lines: one iteration for each line. -/
theorem run_lines (lib : Lib Tweet) (env : Nat → Outcome) (p : Nat) (conn : streamConn)
    (ch : Nat) (lines : List Bytes) (rest : Bytes) (w : World Tweet)
    (hp : w.heap[p]? = some conn) (hactive : conn.stale = false) (hch : conn.stream = some ch)
    (hlines : ∀ l ∈ lines, 10 ∉ l) :
    (readStream.run lib env p (List.replicate lines.length Interf.quiet)
        (wire lines ++ rest) w).status = .running
    ∧ (readStream.run lib env p (List.replicate lines.length Interf.quiet)
        (wire lines ++ rest) w).reader = rest
    ∧ (readStream.run lib env p (List.replicate lines.length Interf.quiet)
        (wire lines ++ rest) w).world.heap = w.heap
    ∧ sends (readStream.run lib env p (List.replicate lines.length Interf.quiet)
        (wire lines ++ rest) w).world.trace
      = sends w.trace ++ (lines.filter (fun l => decide (lib.TrimSpace (l ++ [10]) ≠ []))).map
          (fun l => (ch, (lib.Unmarshal (lib.TrimSpace (l ++ [10])) lib.zeroTweet).1))
    ∧ linesRead (readStream.run lib env p (List.replicate lines.length Interf.quiet)
        (wire lines ++ rest) w).world.trace
      = linesRead w.trace ++ lines.map (· ++ [10]) := by
  induction lines generalizing w with
  | nil => simp [readStream.run, wire]
  | cons l ls ih =>
      have hl : 10 ∉ l := hlines l (by simp)
      have hls : ∀ l ∈ ls, 10 ∉ l := fun x hx => hlines x (by simp [hx])
      have hit := iter_line lib env p Interf.quiet conn l (wire ls ++ rest) w rfl hp hactive hl
      rw [List.length_cons, List.replicate_succ, wire_cons, run_cons, hit]
      by_cases hb : lib.TrimSpace (l ++ [10]) = []
      · have ih1 := ih (w.emit (.readBytes (l ++ [10]) true)) (by simpa using hp) hls
        simp [hb, ih1, sends_append, sends, linesRead_append, linesRead]
      · have hlen : (lib.TrimSpace (l ++ [10])).length ≠ 0 := by
          simpa [List.length_eq_zero] using hb
        have ih1 := ih ((w.emit (.readBytes (l ++ [10]) true)).emit
          (.send ch (lib.Unmarshal (lib.TrimSpace (l ++ [10])) lib.zeroTweet).1))
          (by simpa using hp) hls
        simp [hb, hch, ih1, sends_append, sends, linesRead_append, linesRead]

/-- C4: on an Active connection that no other goroutine touches, when the
response body starts with newline-terminated lines each of which is blank
(empty after `TrimSpace`) or decodes without error, then after one iteration
for each line the loop is still running, the reader stands after the lines,
the lines read are those lines in order, and the records sent since the
start are exactly the decoded non-blank lines, in order, on the
connection's channel: nothing is sent for a blank line. -/
theorem readStream_delivers_records (lib : Lib Tweet) (env : Nat → Outcome) (p : Nat)
    (conn : streamConn) (ch : Nat) (resp : Response) (lines : List Bytes) (rest : Bytes)
    (w : World Tweet)
    (hp : w.heap[p]? = some conn) (hactive : conn.stale = false) (hch : conn.stream = some ch)
    (hbody : resp.Body = wire lines ++ rest)
    (hlines : ∀ l ∈ lines, 10 ∉ l)
    (_hjson : ∀ l ∈ lines, lib.TrimSpace (l ++ [10]) = []
      ∨ (lib.Unmarshal (lib.TrimSpace (l ++ [10])) lib.zeroTweet).2 = none) :
    (streamConn.readStream lib env p resp (List.replicate lines.length Interf.quiet) w).status
      = .running
    ∧ (streamConn.readStream lib env p resp (List.replicate lines.length Interf.quiet) w).reader
      = rest
    ∧ sends (streamConn.readStream lib env p resp (List.replicate lines.length Interf.quiet)
        w).world.trace
      = sends w.trace ++ (lines.filter (fun l => decide (lib.TrimSpace (l ++ [10]) ≠ []))).map
          (fun l => (ch, (lib.Unmarshal (lib.TrimSpace (l ++ [10])) lib.zeroTweet).1))
    ∧ linesRead (streamConn.readStream lib env p resp (List.replicate lines.length Interf.quiet)
        w).world.trace
      = linesRead w.trace ++ lines.map (· ++ [10]) := by
  have h := run_lines lib env p conn ch lines rest w hp hactive hch hlines
  unfold streamConn.readStream
  rw [hbody]
  exact ⟨h.1, h.2.1, h.2.2.2.1, h.2.2.2.2⟩

theorem readStream_delivers_records_witness :
    helloWorldResp.Body = wire helloWorldLines ++ []
    ∧ (∀ l ∈ helloWorldLines, 10 ∉ l)
    ∧ (∀ l ∈ helloWorldLines, textLib.TrimSpace (l ++ [10]) = []
      ∨ (textLib.Unmarshal (textLib.TrimSpace (l ++ [10])) textLib.zeroTweet).2 = none)
    ∧ ((streamConn.readStream textLib envDown 0 helloWorldResp
          (List.replicate helloWorldLines.length Interf.quiet) trackWorld).status = .running
      ∧ (streamConn.readStream textLib envDown 0 helloWorldResp
          (List.replicate helloWorldLines.length Interf.quiet) trackWorld).reader = []
      ∧ sends (streamConn.readStream textLib envDown 0 helloWorldResp
          (List.replicate helloWorldLines.length Interf.quiet) trackWorld).world.trace
        = sends trackWorld.trace
          ++ (helloWorldLines.filter (fun l => decide (textLib.TrimSpace (l ++ [10]) ≠ []))).map
            (fun l => (0, (textLib.Unmarshal (textLib.TrimSpace (l ++ [10]))
              textLib.zeroTweet).1))
      ∧ linesRead (streamConn.readStream textLib envDown 0 helloWorldResp
          (List.replicate helloWorldLines.length Interf.quiet) trackWorld).world.trace
        = linesRead trackWorld.trace ++ helloWorldLines.map (· ++ [10]))
    ∧ sends (streamConn.readStream textLib envDown 0 helloWorldResp
          (List.replicate helloWorldLines.length Interf.quiet) trackWorld).world.trace
        = [(0, ⟨bytes "hello"⟩), (0, ⟨bytes "world"⟩)] :=
  ⟨by decide, by decide, by decide,
    readStream_delivers_records textLib envDown 0 trackConn 0 helloWorldResp helloWorldLines []
      trackWorld rfl rfl rfl (by decide) (by decide) (by decide),
    by decide⟩

/-- C5, as stated, fails: the line `oops` is not blank and does not decode,
and the iteration that reads it on an Active connection sends a record, the
zero record, and goes on. -/
theorem malformed_line_is_sent :
    textLib.TrimSpace (bytes "oops\n") ≠ []
    ∧ (textLib.Unmarshal (textLib.TrimSpace (bytes "oops\n")) textLib.zeroTweet).2 ≠ none
    ∧ (readStream.iter textLib envDown 0 Interf.quiet (bytes "oops\n") trackWorld).status
      = .running
    ∧ sends (readStream.iter textLib envDown 0 Interf.quiet (bytes "oops\n")
        trackWorld).world.trace = [(0, ⟨[]⟩)] := by
  decide

/-- C5, amended: for a non-blank line on which `json.Unmarshal` reports an
error, the error is ignored: the iteration sends exactly one record on the
connection's channel, the value that `json.Unmarshal` left in the variable
`tweet`, which starts as the zero record, and the loop proceeds to the next
line. -/
theorem malformed_line_record (lib : Lib Tweet) (env : Nat → Outcome) (p : Nat) (i : Interf)
    (conn : streamConn) (ch : Nat) (l rest : Bytes) (w : World Tweet)
    (hi : i.atTop = false) (hp : w.heap[p]? = some conn) (hactive : conn.stale = false)
    (hch : conn.stream = some ch) (hl : 10 ∉ l)
    (hnb : lib.TrimSpace (l ++ [10]) ≠ [])
    (_hbad : (lib.Unmarshal (lib.TrimSpace (l ++ [10])) lib.zeroTweet).2 ≠ none) :
    readStream.iter lib env p i (l ++ 10 :: rest) w
      = ⟨.running, rest, (w.emit (.readBytes (l ++ [10]) true)).emit
          (.send ch (lib.Unmarshal (lib.TrimSpace (l ++ [10])) lib.zeroTweet).1)⟩
    ∧ sends (readStream.iter lib env p i (l ++ 10 :: rest) w).world.trace
      = sends w.trace ++ [(ch, (lib.Unmarshal (lib.TrimSpace (l ++ [10])) lib.zeroTweet).1)] := by
  have hlen : (lib.TrimSpace (l ++ [10])).length ≠ 0 := by
    simpa [List.length_eq_zero] using hnb
  rw [iter_line lib env p i conn l rest w hi hp hactive hl]
  simp [hlen, hnb, hch, sends_append, sends]

theorem malformed_line_record_witness :
    Interf.quiet.atTop = false
    ∧ 10 ∉ bytes "oops"
    ∧ textLib.TrimSpace (bytes "oops" ++ [10]) ≠ []
    ∧ (textLib.Unmarshal (textLib.TrimSpace (bytes "oops" ++ [10])) textLib.zeroTweet).2 ≠ none
    ∧ (readStream.iter textLib envDown 0 Interf.quiet (bytes "oops" ++ 10 :: bytes "next\n")
        trackWorld
      = ⟨.running, bytes "next\n", (trackWorld.emit (.readBytes (bytes "oops" ++ [10]) true)).emit
          (.send 0 (textLib.Unmarshal (textLib.TrimSpace (bytes "oops" ++ [10]))
            textLib.zeroTweet).1)⟩
      ∧ sends (readStream.iter textLib envDown 0 Interf.quiet
          (bytes "oops" ++ 10 :: bytes "next\n") trackWorld).world.trace
        = sends trackWorld.trace ++ [(0, (textLib.Unmarshal
            (textLib.TrimSpace (bytes "oops" ++ [10])) textLib.zeroTweet).1)]) :=
  ⟨rfl, by decide, by decide, by decide,
    malformed_line_record textLib envDown 0 Interf.quiet trackConn 0 (bytes "oops")
      (bytes "next\n") trackWorld rfl rfl rfl rfl (by decide) (by decide) (by decide)⟩

/-! ### The exit of the loop -/

/-- An iteration that begins with the connection Retiring. -/
theorem iter_retiring (lib : Lib Tweet) (env : Nat → Outcome) (p : Nat) (i : Interf)
    (reader : Bytes) (w : World Tweet) (conn : streamConn) (cc : Nat)
    (hp : (w.interfere p i.atTop).heap[p]? = some conn) (hstale : conn.stale = true)
    (hcc : conn.clientConn = some cc) :
    (readStream.iter lib env p i reader w).status = .exited
    ∧ (readStream.iter lib env p i reader w).world.trace
      = w.trace ++ (if cc ∈ w.detached then [.detach cc] else [.detach cc, .closeTcp cc]) := by
  by_cases hd : cc ∈ w.detached
  · have hd2 : cc ∈ (w.interfere p i.atTop).detached := by
      unfold World.interfere; split <;> simpa using hd
    have ht : (w.interfere p i.atTop).trace = w.trace := by
      unfold World.interfere; split <;> simp
    simp [readStream.iter, hp, hstale, hcc, ClientConn.Close, hd, hd2, ht]
  · have hd2 : cc ∉ (w.interfere p i.atTop).detached := by
      unfold World.interfere; split <;> simpa using hd
    have ht : (w.interfere p i.atTop).trace = w.trace := by
      unfold World.interfere; split <;> simp
    simp [readStream.iter, hp, hstale, hcc, ClientConn.Close, hd, hd2, ht, World.emit]

/-- An iteration exits only when it begins with the connection Retiring. -/
theorem iter_exited (lib : Lib Tweet) (env : Nat → Outcome) (p : Nat) (i : Interf)
    (reader : Bytes) (w : World Tweet)
    (h : (readStream.iter lib env p i reader w).status = .exited) :
    ∃ conn, (w.interfere p i.atTop).heap[p]? = some conn ∧ conn.stale = true := by
  unfold readStream.iter at h
  cases hp : (w.interfere p i.atTop).heap[p]? with
  | none => simp [hp] at h
  | some conn =>
      refine ⟨conn, rfl, ?_⟩
      by_contra hs
      simp only [hp, hs, Bool.false_eq_true, if_false] at h
      repeat' split at h
      all_goals simp at h

theorem interfere_get (w : World Tweet) (p : Nat) (b : Bool) :
    (w.interfere p b).heap[p]?
      = w.heap[p]?.map (fun c => if b then streamConn.Close c else c) := by
  cases b <;> simp [World.interfere, update_get]

/-- The handshake leaves the heap alone and never clears `clientConn`. -/
theorem connect_keeps (env : Nat → Outcome) (conn : streamConn) (w : World Tweet) :
    (streamConn.connect env conn w).2.1.heap = w.heap
    ∧ (conn.clientConn.isSome = true →
        (streamConn.connect env conn w).1.clientConn.isSome = true) := by
  unfold streamConn.connect
  by_cases hs : conn.stale = true
  · simp [hs]
  · cases ho : env w.dials <;> simp [hs, ho]

/-- An iteration that begins with the connection Active goes round: it ends
running, or blocked in the send when the connection has no channel; it
neither exits nor faults. -/
theorem iter_active (lib : Lib Tweet) (env : Nat → Outcome) (p : Nat) (i : Interf)
    (reader : Bytes) (w : World Tweet) (conn : streamConn)
    (hp : (w.interfere p i.atTop).heap[p]? = some conn) (hactive : conn.stale = false) :
    ((readStream.iter lib env p i reader w).status = .running
      ∨ (readStream.iter lib env p i reader w).status = .blocked)
    ∧ (conn.stream ≠ none → (readStream.iter lib env p i reader w).status = .running) := by
  have key : (readStream.iter lib env p i reader w).status = .running
      ∨ ((readStream.iter lib env p i reader w).status = .blocked ∧ conn.stream = none) := by
    unfold readStream.iter
    simp only [hp, hactive, Bool.false_eq_true, if_false]
    repeat' split
    all_goals simp_all [interfere_get]
    all_goals
      obtain ⟨a, ha, _⟩ := hp
      rw [List.getElem?_eq_none (by assumption)] at ha
      cases ha
  rcases key with h | ⟨h, hn⟩
  · exact ⟨Or.inl h, fun _ => h⟩
  · exact ⟨Or.inr h, fun hne => absurd hn hne⟩

theorem ready_iff (w : World Tweet) (p : Nat) :
    w.ready p = true ↔ ∃ conn, w.heap[p]? = some conn ∧ conn.clientConn.isSome = true
      ∧ conn.stream.isSome = true := by
  unfold World.ready
  cases h : w.heap[p]? <;> simp

theorem interfere_ready (w : World Tweet) (p : Nat) (b : Bool) (h : w.ready p = true) :
    (w.interfere p b).ready p = true := by
  obtain ⟨conn, hp, hcc, hst⟩ := (ready_iff w p).1 h
  refine (ready_iff _ p).2 ⟨if b then streamConn.Close conn else conn, ?_, ?_, ?_⟩
  · simp [interfere_get, hp]
  · cases b <;> simpa [streamConn.Close] using hcc
  · cases b <;> simpa [streamConn.Close] using hst

theorem emit_ready (w : World Tweet) (p : Nat) (e : Event Tweet) :
    (w.emit e).ready p = w.ready p := rfl

/-- An iteration keeps the connection as `Client.connect` handed it over:
present, with its `clientConn` and its `stream` set. -/
theorem iter_ready (lib : Lib Tweet) (env : Nat → Outcome) (p : Nat) (i : Interf)
    (reader : Bytes) (w : World Tweet) (h : w.ready p = true) :
    (readStream.iter lib env p i reader w).world.ready p = true := by
  unfold readStream.iter
  have h0 := interfere_ready w p i.atTop h
  generalize w.interfere p i.atTop = w0 at h0 ⊢
  obtain ⟨conn, hp, hcc, hst⟩ := (ready_iff w0 p).1 h0
  obtain ⟨cc, hcc1⟩ := Option.isSome_iff_exists.1 hcc
  obtain ⟨ch, hch⟩ := Option.isSome_iff_exists.1 hst
  simp only [hp]
  by_cases hs : conn.stale = true
  · simp only [hs, if_true, hcc1]
    by_cases hd : cc ∈ w0.detached
    · simp only [ClientConn.Close, hd, if_true]
      exact h0
    · simp only [ClientConn.Close, hd, if_false]
      exact h0
  · simp only [hs, Bool.false_eq_true, if_false]
    rcases hrb : ReadBytes 10 reader with ⟨line, rest, err⟩
    cases err
    · simp only [hch]
      split
      · exact h0
      · exact h0
    · simp only []
      have h1 := interfere_ready (w0.emit (.readBytes line false)) p i.atErr h0
      generalize (w0.emit (.readBytes line false)).interfere p i.atErr = w1 at h1 ⊢
      obtain ⟨conn1, hp1, hcc1, hst1⟩ := (ready_iff w1 p).1 h1
      simp only [hp1]
      split
      · exact h1
      · have h2 := interfere_ready w1 p i.atConnect h1
        generalize w1.interfere p i.atConnect = w2 at h2 ⊢
        obtain ⟨conn2, hp2, hcc2, hst2⟩ := (ready_iff w2 p).1 h2
        simp only [hp2]
        have hk := connect_keeps env conn2 w2
        rcases hc : streamConn.connect env conn2 w2 with ⟨conn3, w3, res⟩
        rw [hc] at hk
        have hget : (w3.update p (fun c => { c with clientConn := conn3.clientConn })).ready p
            = true := by
          refine (ready_iff _ p).2 ⟨{ conn2 with clientConn := conn3.clientConn }, ?_, ?_, ?_⟩
          · have : w3.heap[p]? = some conn2 := by rw [hk.1]; exact hp2
            simp [update_get, this]
          · exact hk.2 hcc2
          · exact hst2
        cases res with
        | error err => exact hget
        | ok resp =>
            simp only []
            split <;> exact hget

/-- An iteration on a connection as `Client.connect` handed it over exits
when it begins Retiring and ends running when it begins Active. -/
theorem iter_ready_status (lib : Lib Tweet) (env : Nat → Outcome) (p : Nat) (i : Interf)
    (reader : Bytes) (w : World Tweet) (h : w.ready p = true) :
    (readStream.iter lib env p i reader w).status = .running
    ∨ (readStream.iter lib env p i reader w).status = .exited := by
  have h0 := interfere_ready w p i.atTop h
  obtain ⟨conn, hp, hcc, hst⟩ := (ready_iff _ p).1 h0
  by_cases hs : conn.stale = true
  · obtain ⟨cc, hcc1⟩ := Option.isSome_iff_exists.1 hcc
    exact Or.inr (iter_retiring lib env p i reader w conn cc hp hs hcc1).1
  · have hne : conn.stream ≠ none := by
      intro hn
      simp [hn] at hst
    exact Or.inl ((iter_active lib env p i reader w conn hp (by simpa using hs)).2 hne)

/-- A run that has exited did so in an iteration that begins Retiring. -/
theorem run_exited (lib : Lib Tweet) (env : Nat → Outcome) (p : Nat) (sched : List Interf)
    (reader : Bytes) (w : World Tweet)
    (h : (readStream.run lib env p sched reader w).status = .exited) :
    ∃ pre i post reader1 w1, sched = pre ++ i :: post
      ∧ readStream.run lib env p pre reader w = ⟨.running, reader1, w1⟩
      ∧ readStream.run lib env p sched reader w = readStream.iter lib env p i reader1 w1
      ∧ (readStream.iter lib env p i reader1 w1).status = .exited := by
  induction sched generalizing reader w with
  | nil => simp [readStream.run] at h
  | cons i sched ih =>
      rw [run_cons] at h
      cases hst : (readStream.iter lib env p i reader w).status with
      | running =>
          simp only [hst] at h
          obtain ⟨pre, j, post, reader1, w1, hs, hpre, hrun, hex⟩ := ih _ _ h
          refine ⟨i :: pre, j, post, reader1, w1, by simp [hs], ?_, ?_, hex⟩
          · rw [run_cons]; simp only [hst]; exact hpre
          · rw [run_cons]; simp only [hst]; exact hrun
      | exited =>
          refine ⟨[], i, sched, reader, w, rfl, rfl, ?_, hst⟩
          rw [run_cons]; simp only [hst]
      | blocked => simp only [hst] at h; simp [hst] at h
      | faulted => simp only [hst] at h; simp [hst] at h

/-- A read loop on a connection as `Client.connect` handed it over is, after
any number of iterations, running or exited, and the connection is still as
it was handed over. -/
theorem run_ready (lib : Lib Tweet) (env : Nat → Outcome) (p : Nat) (sched : List Interf)
    (reader : Bytes) (w : World Tweet) (h : w.ready p = true) :
    ((readStream.run lib env p sched reader w).status = .running
      ∨ (readStream.run lib env p sched reader w).status = .exited)
    ∧ (readStream.run lib env p sched reader w).world.ready p = true := by
  induction sched generalizing reader w with
  | nil => exact ⟨Or.inl rfl, h⟩
  | cons i sched ih =>
      have hr := iter_ready lib env p i reader w h
      rw [run_cons]
      rcases iter_ready_status lib env p i reader w h with hst | hst
      · simp only [hst]
        exact ih _ _ hr
      · simp [hst, hr]

/-- A successful `Client.connect` starts its read loop on a connection that
exists and has its `clientConn` and its `stream` set. -/
theorem connect_installs_ready (lib : Lib Tweet) (env : Nat → Outcome) (c : Client)
    (w : World Tweet) (url : URL) (body : String)
    (h : (Client.connect lib env c w url body).1 = none) :
    ∃ q r, (Client.connect lib env c w url body).2.1.conn = some q
      ∧ spawns (Client.connect lib env c w url body).2.2.trace = spawns w.trace ++ [(q, r)]
      ∧ (Client.connect lib env c w url body).2.2.ready q = true := by
  by_cases hc : c.Username = "" ∨ c.Password = ""
  · simp [Client.connect, hc] at h
  · cases ho : env w.dials with
    | dialErr e => simp [Client.connect, hc, streamConn.connect, streamConn.zero, ho] at h
    | writeErr e => simp [Client.connect, hc, streamConn.connect, streamConn.zero, ho] at h
    | readErr e => simp [Client.connect, hc, streamConn.connect, streamConn.zero, ho] at h
    | response r =>
        by_cases h200 : r.StatusCode = 200
        · refine ⟨w.heap.length, r, ?_⟩
          cases hconn : c.conn <;>
            simp [Client.connect, hc, streamConn.connect, streamConn.zero, ho, h200, hconn,
              World.emit, World.update, World.ready, spawns_append, spawns,
              List.getElem?_modify]
        · simp [Client.connect, hc, streamConn.connect, streamConn.zero, ho, h200] at h

/-- C8: (1) an iteration that begins with the connection Retiring (after any
`Close` by another goroutine just before the test) exits: it detaches the
client connection, closes the socket that call returns if it returns one, and
reads no line and sends no record; (2) an iteration that begins with the
connection Active goes round, whatever the read and the reconnect do: it
ends running (or, on a connection without a channel, blocked in the send);
it neither exits nor faults; (3) in every execution, under every schedule of
the other goroutines and every network, a loop that has exited did so in an
iteration that began with the connection Retiring, all the iterations before
it having gone round; (4) a loop on a connection that exists and has its
`clientConn` and `stream` set is, after any number of iterations under any
schedule and network, running or exited, never stopped in another way, and
the connection is still so; (5) that is the connection on which a successful
`Client.connect` starts the loop. -/
theorem readStream_single_exit (lib : Lib Tweet) (env : Nat → Outcome) (p : Nat) :
    (∀ (i : Interf) (reader : Bytes) (w : World Tweet) (conn : streamConn) (cc : Nat),
      (w.interfere p i.atTop).heap[p]? = some conn → conn.stale = true →
      conn.clientConn = some cc →
        (readStream.iter lib env p i reader w).status = .exited
        ∧ (readStream.iter lib env p i reader w).world.trace
          = w.trace ++ (if cc ∈ w.detached then [.detach cc] else [.detach cc, .closeTcp cc])
        ∧ linesRead (readStream.iter lib env p i reader w).world.trace = linesRead w.trace
        ∧ sends (readStream.iter lib env p i reader w).world.trace = sends w.trace)
    ∧ (∀ (i : Interf) (reader : Bytes) (w : World Tweet) (conn : streamConn),
      (w.interfere p i.atTop).heap[p]? = some conn → conn.stale = false →
        ((readStream.iter lib env p i reader w).status = .running
          ∨ (readStream.iter lib env p i reader w).status = .blocked)
        ∧ (conn.stream ≠ none → (readStream.iter lib env p i reader w).status = .running)
        ∧ (readStream.iter lib env p i reader w).status ≠ .exited
        ∧ (readStream.iter lib env p i reader w).status ≠ .faulted)
    ∧ (∀ (sched : List Interf) (reader : Bytes) (w : World Tweet),
      (readStream.run lib env p sched reader w).status = .exited →
        ∃ pre i post reader1 w1 conn, sched = pre ++ i :: post
          ∧ readStream.run lib env p pre reader w = ⟨.running, reader1, w1⟩
          ∧ (w1.interfere p i.atTop).heap[p]? = some conn ∧ conn.stale = true
          ∧ readStream.run lib env p sched reader w = readStream.iter lib env p i reader1 w1)
    ∧ (∀ (sched : List Interf) (reader : Bytes) (w : World Tweet), w.ready p = true →
        ((readStream.run lib env p sched reader w).status = .running
          ∨ (readStream.run lib env p sched reader w).status = .exited)
        ∧ (readStream.run lib env p sched reader w).world.ready p = true)
    ∧ (∀ (c : Client) (w : World Tweet) (url : URL) (body : String),
      (Client.connect lib env c w url body).1 = none →
        ∃ q r, (Client.connect lib env c w url body).2.1.conn = some q
          ∧ spawns (Client.connect lib env c w url body).2.2.trace
            = spawns w.trace ++ [(q, r)]
          ∧ (Client.connect lib env c w url body).2.2.ready q = true) := by
  refine ⟨?_, ?_, ?_, ?_, ?_⟩
  · intro i reader w conn cc hp hstale hcc
    have h := iter_retiring lib env p i reader w conn cc hp hstale hcc
    refine ⟨h.1, h.2, ?_, ?_⟩
    · rw [h.2]; split <;> simp [linesRead_append, linesRead]
    · rw [h.2]; split <;> simp [sends_append, sends]
  · intro i reader w conn hp hactive
    have h := iter_active lib env p i reader w conn hp hactive
    refine ⟨h.1, h.2, ?_, ?_⟩
    · rcases h.1 with h1 | h1 <;> simp [h1]
    · rcases h.1 with h1 | h1 <;> simp [h1]
  · intro sched reader w h
    obtain ⟨pre, i, post, reader1, w1, hs, hpre, hrun, hex⟩ := run_exited lib env p sched reader w h
    obtain ⟨conn, hp, hstale⟩ := iter_exited lib env p i reader1 w1 hex
    exact ⟨pre, i, post, reader1, w1, conn, hs, hpre, hp, hstale, hrun⟩
  · intro sched reader w h
    exact run_ready lib env p sched reader w h
  · intro c w url body h
    exact connect_installs_ready lib env c w url body h

theorem readStream_single_exit_witness :
    (readStream.run textLib envDown 0 [Interf.quiet, ⟨true, false, false⟩]
      (bytes "\n") trackWorld).status = .exited
    ∧ (readStream.run textLib envDown 0 [Interf.quiet, ⟨true, false, false⟩]
      (bytes "\n") trackWorld).world.trace
        = [.readBytes [10] true, .detach 0, .closeTcp 0]
    ∧ (∃ pre i post reader1 w1 conn, [Interf.quiet, ⟨true, false, false⟩] = pre ++ i :: post
      ∧ readStream.run textLib envDown 0 pre (bytes "\n") trackWorld = ⟨.running, reader1, w1⟩
      ∧ (w1.interfere 0 i.atTop).heap[0]? = some conn ∧ conn.stale = true
      ∧ readStream.run textLib envDown 0 [Interf.quiet, ⟨true, false, false⟩] (bytes "\n")
          trackWorld = readStream.iter textLib envDown 0 i reader1 w1)
    ∧ trackWorld.ready 0 = true
    ∧ (((readStream.run textLib envDown 0 [Interf.quiet, Interf.quiet, Interf.quiet]
          (bytes "oops") trackWorld).status = .running
        ∨ (readStream.run textLib envDown 0 [Interf.quiet, Interf.quiet, Interf.quiet]
          (bytes "oops") trackWorld).status = .exited)
      ∧ (readStream.run textLib envDown 0 [Interf.quiet, Interf.quiet, Interf.quiet]
          (bytes "oops") trackWorld).world.ready 0 = true)
    ∧ (readStream.run textLib envDown 0 [Interf.quiet, Interf.quiet, Interf.quiet]
          (bytes "oops") trackWorld).status = .running :=
  ⟨by decide, by decide,
    (readStream_single_exit textLib envDown 0).2.2.1 [Interf.quiet, ⟨true, false, false⟩]
      (bytes "\n") trackWorld (by decide),
    by decide,
    (readStream_single_exit textLib envDown 0).2.2.2.1 [Interf.quiet, Interf.quiet, Interf.quiet]
      (bytes "oops") trackWorld (by decide),
    by decide⟩

/-! ### Reconnecting -/

/-- An iteration on an Active connection, left alone, whose read fails:
one call of `conn.connect()`, then the three cases of lines 91-102. -/
theorem iter_read_failure (lib : Lib Tweet) (env : Nat → Outcome) (p : Nat)
    (conn : streamConn) (reader : Bytes) (w : World Tweet)
    (hp : w.heap[p]? = some conn) (hactive : conn.stale = false)
    (hread : (ReadBytes 10 reader).2.2 = true) :
    readStream.iter lib env p Interf.quiet reader w =
      match streamConn.connect env conn (w.emit (.readBytes reader false)) with
      | (conn1, w1, .error err) =>
          ⟨.running, [], ((w1.update p (fun c => { c with clientConn := conn1.clientConn })).emit
            (.println err)).emit (.sleep retryTimeout)⟩
      | (conn1, w1, .ok resp) =>
          if resp.StatusCode ≠ 200 then
            ⟨.running, [], w1.update p (fun c => { c with clientConn := conn1.clientConn })⟩
          else
            ⟨.running, resp.Body, w1.update p (fun c => { c with clientConn := conn1.clientConn })⟩ := by
  simp only [readStream.iter, Interf.quiet, World.interfere, ReadBytes_err reader hread]
  simp [hp, hactive]

/-- An iteration on an Active connection, left alone, whose read fails and
whose reconnect fails at the transport level. -/
theorem iter_transport_failure (lib : Lib Tweet) (env : Nat → Outcome) (p : Nat)
    (conn : streamConn) (reader : Bytes) (w : World Tweet)
    (hp : w.heap[p]? = some conn) (hactive : conn.stale = false)
    (hread : (ReadBytes 10 reader).2.2 = true)
    (hfail : (env w.dials).transportFailure = true) :
    ∃ conn1 w1 err,
      streamConn.connect env conn (w.emit (.readBytes reader false)) = (conn1, w1, .error err)
      ∧ readStream.iter lib env p Interf.quiet reader w
        = ⟨.running, [], ((w1.update p (fun c => { c with clientConn := conn1.clientConn })).emit
            (.println err)).emit (.sleep 5000000000)⟩
      ∧ (readStream.iter lib env p Interf.quiet reader w).world.dials = w.dials + 1
      ∧ (readStream.iter lib env p Interf.quiet reader w).world.heap[p]?
        = some { conn with clientConn := conn1.clientConn }
      ∧ pacing (readStream.iter lib env p Interf.quiet reader w).world.trace
        = pacing w.trace ++ [.attempt (conn.url.Host ++ ":80"), .pause 5000000000] := by
  rw [iter_read_failure lib env p conn reader w hp hactive hread]
  cases ho : env w.dials with
  | response r => simp [ho, Outcome.transportFailure] at hfail
  | dialErr e =>
      have hc : streamConn.connect env conn (w.emit (.readBytes reader false))
          = (conn, { w.emit (.readBytes reader false) with dials := w.dials + 1 }.emit
              (.dial (conn.url.Host ++ ":80") false), .error e) := by
        simp [streamConn.connect, hactive, ho]
      refine ⟨_, _, _, hc, ?_⟩
      simp [hc, retryTimeout, update_get, hp, pacing_append, pacing]
  | writeErr e =>
      have hc : streamConn.connect env conn (w.emit (.readBytes reader false))
          = ({ conn with clientConn := some w.dials },
              ({ w.emit (.readBytes reader false) with dials := w.dials + 1 }.emit
                (.dial (conn.url.Host ++ ":80") true)).emit
                (.write w.dials ({ conn with clientConn := some w.dials }).request false),
              .error e) := by
        simp [streamConn.connect, hactive, ho]
      refine ⟨_, _, _, hc, ?_⟩
      simp [hc, retryTimeout, update_get, hp, pacing_append, pacing]
  | readErr e =>
      have hc : streamConn.connect env conn (w.emit (.readBytes reader false))
          = ({ conn with clientConn := some w.dials },
              (({ w.emit (.readBytes reader false) with dials := w.dials + 1 }.emit
                (.dial (conn.url.Host ++ ":80") true)).emit
                (.write w.dials ({ conn with clientConn := some w.dials }).request true)).emit
                (.read w.dials none),
              .error e) := by
        simp [streamConn.connect, hactive, ho]
      refine ⟨_, _, _, hc, ?_⟩
      simp [hc, retryTimeout, update_get, hp, pacing_append, pacing]

/-- An iteration on an Active connection, left alone, whose read fails,
dials exactly once, whatever the network answers. -/
theorem iter_one_dial (lib : Lib Tweet) (env : Nat → Outcome) (p : Nat)
    (conn : streamConn) (reader : Bytes) (w : World Tweet)
    (hp : w.heap[p]? = some conn) (hactive : conn.stale = false)
    (hread : (ReadBytes 10 reader).2.2 = true) :
    ∃ ok, dialled (readStream.iter lib env p Interf.quiet reader w).world.trace
      = dialled w.trace ++ [(conn.url.Host ++ ":80", ok)] := by
  rw [iter_read_failure lib env p conn reader w hp hactive hread]
  cases ho : env w.dials with
  | dialErr e =>
      exact ⟨false, by simp [streamConn.connect, hactive, ho, dialled_append, dialled]⟩
  | writeErr e =>
      exact ⟨true, by simp [streamConn.connect, hactive, ho, dialled_append, dialled]⟩
  | readErr e =>
      exact ⟨true, by simp [streamConn.connect, hactive, ho, dialled_append, dialled]⟩
  | response r =>
      refine ⟨true, ?_⟩
      by_cases h200 : r.StatusCode = 200 <;>
        simp [streamConn.connect, hactive, ho, dialled_append, dialled, h200]

/-- The loop on an Active connection, left alone, whose reader has failed,
while the network keeps failing: one attempt and one sleep in each
iteration, without end. -/
theorem run_transport_failures (lib : Lib Tweet) (env : Nat → Outcome) (p : Nat) (n : Nat)
    (conn : streamConn) (reader : Bytes) (w : World Tweet)
    (hp : w.heap[p]? = some conn) (hactive : conn.stale = false)
    (hread : (ReadBytes 10 reader).2.2 = true)
    (hfail : ∀ k < n, (env (w.dials + k)).transportFailure = true) :
    (readStream.run lib env p (List.replicate n Interf.quiet) reader w).status = .running
    ∧ (readStream.run lib env p (List.replicate n Interf.quiet) reader w).world.dials
      = w.dials + n
    ∧ (∃ conn1, (readStream.run lib env p (List.replicate n Interf.quiet) reader w).world.heap[p]?
          = some conn1
        ∧ conn1.url = conn.url ∧ conn1.authData = conn.authData
        ∧ conn1.postData = conn.postData ∧ conn1.stale = false)
    ∧ pacing (readStream.run lib env p (List.replicate n Interf.quiet) reader w).world.trace
      = pacing w.trace
        ++ (List.replicate n [Pace.attempt (conn.url.Host ++ ":80"), .pause 5000000000]).flatten := by
  induction n generalizing conn reader w with
  | zero => exact ⟨rfl, rfl, ⟨conn, hp, rfl, rfl, rfl, hactive⟩, by simp [readStream.run]⟩
  | succ n ih =>
      obtain ⟨conn1, w1, err, _, hit, hd, hh, hpace⟩ :=
        iter_transport_failure lib env p conn reader w hp hactive hread (by simpa using hfail 0)
      have hst : (readStream.iter lib env p Interf.quiet reader w).status = .running := by
        rw [hit]
      have hrd : (readStream.iter lib env p Interf.quiet reader w).reader = [] := by
        rw [hit]
      have hfail1 : ∀ k < n, (env ((readStream.iter lib env p Interf.quiet reader w).world.dials
          + k)).transportFailure = true := by
        intro k hk
        rw [hd, Nat.add_assoc, Nat.add_comm 1 k]
        exact hfail (k + 1) (by omega)
      obtain ⟨h1, h2, ⟨conn2, h3, h4, h5, h6, h7⟩, h8⟩ :=
        ih { conn with clientConn := conn1.clientConn } []
          (readStream.iter lib env p Interf.quiet reader w).world hh hactive rfl hfail1
      rw [List.replicate_succ, run_cons]
      simp only [hst, hrd]
      refine ⟨h1, ?_, ⟨conn2, h3, h4, h5, h6, h7⟩, ?_⟩
      · rw [h2, hd]; omega
      · rw [h8, hpace]; simp [List.replicate_succ]

/-- C9: in the read loop of an Active connection that no other goroutine
touches, an iteration whose read fails makes exactly one call of
`conn.connect()` on the same object (same url, credentials and body), hence
exactly one dial, whatever the network answers; when that call fails at the
transport level the iteration prints the error, sleeps `retryTimeout` =
5000000000 ns and goes round. And however
many times in a row the network fails, the loop keeps running, the
connection keeps its url, credentials and body, and the dials and sleeps of
the trace alternate: one attempt, one sleep of 5000000000 ns, one attempt,
one sleep of 5000000000 ns, and so on. -/
theorem reconnect_pacing (lib : Lib Tweet) (env : Nat → Outcome) (p : Nat) (n : Nat)
    (conn : streamConn) (reader : Bytes) (w : World Tweet)
    (hp : w.heap[p]? = some conn) (hactive : conn.stale = false)
    (hread : (ReadBytes 10 reader).2.2 = true)
    (hfail : ∀ k < n, (env (w.dials + k)).transportFailure = true) :
    retryTimeout = 5000000000
    ∧ readStream.iter lib env p Interf.quiet reader w
      = (match streamConn.connect env conn (w.emit (.readBytes reader false)) with
        | (conn1, w1, .error err) =>
            ⟨.running, [], ((w1.update p (fun c => { c with clientConn := conn1.clientConn })).emit
              (.println err)).emit (.sleep retryTimeout)⟩
        | (conn1, w1, .ok resp) =>
            if resp.StatusCode ≠ 200 then
              ⟨.running, [], w1.update p (fun c => { c with clientConn := conn1.clientConn })⟩
            else
              ⟨.running, resp.Body,
                w1.update p (fun c => { c with clientConn := conn1.clientConn })⟩)
    ∧ (∃ ok, dialled (readStream.iter lib env p Interf.quiet reader w).world.trace
        = dialled w.trace ++ [(conn.url.Host ++ ":80", ok)])
    ∧ ((env w.dials).transportFailure = true →
        ∃ conn1 w1 err,
          streamConn.connect env conn (w.emit (.readBytes reader false))
            = (conn1, w1, .error err)
          ∧ readStream.iter lib env p Interf.quiet reader w
            = ⟨.running, [], ((w1.update p (fun c => { c with clientConn := conn1.clientConn })).emit
                (.println err)).emit (.sleep retryTimeout)⟩
          ∧ pacing (readStream.iter lib env p Interf.quiet reader w).world.trace
            = pacing w.trace ++ [.attempt (conn.url.Host ++ ":80"), .pause retryTimeout])
    ∧ (readStream.run lib env p (List.replicate n Interf.quiet) reader w).status = .running
    ∧ (∃ conn1, (readStream.run lib env p (List.replicate n Interf.quiet) reader w).world.heap[p]?
          = some conn1
        ∧ conn1.url = conn.url ∧ conn1.authData = conn.authData
        ∧ conn1.postData = conn.postData ∧ conn1.stale = false)
    ∧ pacing (readStream.run lib env p (List.replicate n Interf.quiet) reader w).world.trace
      = pacing w.trace
        ++ (List.replicate n [Pace.attempt (conn.url.Host ++ ":80"), .pause retryTimeout]).flatten := by
  have hn := run_transport_failures lib env p n conn reader w hp hactive hread hfail
  refine ⟨rfl, iter_read_failure lib env p conn reader w hp hactive hread,
    iter_one_dial lib env p conn reader w hp hactive hread, ?_, hn.1, hn.2.2.1, hn.2.2.2⟩
  intro hfail0
  obtain ⟨conn1, w1, err, hc, hit, _, _, hpace⟩ :=
    iter_transport_failure lib env p conn reader w hp hactive hread hfail0
  exact ⟨conn1, w1, err, hc, hit, hpace⟩

theorem reconnect_pacing_witness :
    (ReadBytes 10 (bytes "\x7b\"text\":\"hel")).2.2 = true
    ∧ (∀ k < 3, (envDown (trackWorld.dials + k)).transportFailure = true)
    ∧ (readStream.run textLib envDown 0 (List.replicate 3 Interf.quiet)
        (bytes "\x7b\"text\":\"hel") trackWorld).status = .running
    ∧ pacing (readStream.run textLib envDown 0 (List.replicate 3 Interf.quiet)
        (bytes "\x7b\"text\":\"hel") trackWorld).world.trace
      = pacing trackWorld.trace
        ++ (List.replicate 3 [Pace.attempt (trackConn.url.Host ++ ":80"),
              .pause retryTimeout]).flatten
    ∧ pacing (readStream.run textLib envDown 0 (List.replicate 3 Interf.quiet)
        (bytes "\x7b\"text\":\"hel") trackWorld).world.trace
      = [.attempt "stream.twitter.com:80", .pause 5000000000,
         .attempt "stream.twitter.com:80", .pause 5000000000,
         .attempt "stream.twitter.com:80", .pause 5000000000] :=
  ⟨by decide, by decide,
    (reconnect_pacing textLib envDown 0 3 trackConn (bytes "\x7b\"text\":\"hel") trackWorld
      rfl rfl (by decide) (by decide)).2.2.2.2.1,
    (reconnect_pacing textLib envDown 0 3 trackConn (bytes "\x7b\"text\":\"hel") trackWorld
      rfl rfl (by decide) (by decide)).2.2.2.2.2.2,
    by decide⟩

/-- An iteration on an Active connection, left alone, whose read fails and
whose reconnect is answered by the server. -/
theorem iter_response (lib : Lib Tweet) (env : Nat → Outcome) (p : Nat)
    (conn : streamConn) (reader : Bytes) (w : World Tweet) (r : Response)
    (hp : w.heap[p]? = some conn) (hactive : conn.stale = false)
    (hread : (ReadBytes 10 reader).2.2 = true) (hresp : env w.dials = .response r) :
    readStream.iter lib env p Interf.quiet reader w
      = ⟨.running, if r.StatusCode = 200 then r.Body else [],
          ((({ w.emit (.readBytes reader false) with dials := w.dials + 1 }.emit
            (.dial (conn.url.Host ++ ":80") true)).emit
            (.write w.dials conn.request true)).emit
            (.read w.dials (some r))).update p (fun c => { c with clientConn := some w.dials })⟩ := by
  rw [iter_read_failure lib env p conn reader w hp hactive hread]
  by_cases h200 : r.StatusCode = 200 <;>
    simp [streamConn.connect, hactive, hresp, h200, streamConn.request]

/-- The line an iteration reads on an Active connection whose reader holds
a whole line. -/
theorem iter_line_linesRead (lib : Lib Tweet) (env : Nat → Outcome) (p : Nat) (i : Interf)
    (conn : streamConn) (l rest : Bytes) (w : World Tweet)
    (hi : i.atTop = false) (hp : w.heap[p]? = some conn) (hactive : conn.stale = false)
    (hl : 10 ∉ l) :
    linesRead (readStream.iter lib env p i (l ++ 10 :: rest) w).world.trace
      = linesRead w.trace ++ [l ++ [10]] := by
  rw [iter_line lib env p i conn l rest w hi hp hactive hl]
  split
  · simp [linesRead_append, linesRead]
  · cases conn.stream <;> simp [linesRead_append, linesRead]

/-- The line an iteration reads on an Active connection, left alone, whose
read fails: what the reader had left. -/
theorem iter_failure_linesRead (lib : Lib Tweet) (env : Nat → Outcome) (p : Nat)
    (conn : streamConn) (reader : Bytes) (w : World Tweet)
    (hp : w.heap[p]? = some conn) (hactive : conn.stale = false)
    (hread : (ReadBytes 10 reader).2.2 = true) :
    linesRead (readStream.iter lib env p Interf.quiet reader w).world.trace
      = linesRead w.trace ++ [reader] := by
  rw [iter_read_failure lib env p conn reader w hp hactive hread]
  cases ho : env w.dials with
  | dialErr e => simp [streamConn.connect, hactive, ho, linesRead_append, linesRead]
  | writeErr e => simp [streamConn.connect, hactive, ho, linesRead_append, linesRead]
  | readErr e => simp [streamConn.connect, hactive, ho, linesRead_append, linesRead]
  | response r =>
      by_cases h200 : r.StatusCode = 200 <;>
        simp [streamConn.connect, hactive, ho, linesRead_append, linesRead, h200]

/-- C10, as stated, fails: an in-loop reconnect answered `201 Created`, a
2xx status, with a body of records installs no reader: the reader left is
the old one, with nothing to read, and the next iteration reads from it,
fails again and reads no line of the new body. -/
theorem reconnect_201_keeps_reader :
    ((200 : Int) ≤ 201 ∧ (201 : Int) ≤ 299)
    ∧ (readStream.iter textLib (envStatus "201 Created" 201 helloWorldResp.Body) 0 Interf.quiet
        [] trackWorld).status = .running
    ∧ (readStream.iter textLib (envStatus "201 Created" 201 helloWorldResp.Body) 0 Interf.quiet
        [] trackWorld).reader = []
    ∧ (readStream.iter textLib (envStatus "201 Created" 201 helloWorldResp.Body) 0 Interf.quiet
        [] trackWorld).reader ≠ helloWorldResp.Body
    ∧ linesRead (readStream.run textLib (envStatus "201 Created" 201 helloWorldResp.Body) 0
        [Interf.quiet, Interf.quiet] [] trackWorld).world.trace = [[], []]
    ∧ sends (readStream.run textLib (envStatus "201 Created" 201 helloWorldResp.Body) 0
        [Interf.quiet, Interf.quiet] [] trackWorld).world.trace = [] := by
  decide

/-- C10, amended: in the read loop of an Active connection that no other
goroutine touches, an in-loop reconnect answered with status exactly 200
installs a reader over the new response body, and the next iteration reads
its line from that body; for any other status, the other 2xx statuses
included, the response is discarded (nothing is printed, slept or sent) and
the previous reader is kept: it has nothing left, and the next iteration
reads from it and fails again. -/
theorem reconnect_reader (lib : Lib Tweet) (env : Nat → Outcome) (p : Nat)
    (conn : streamConn) (reader : Bytes) (w : World Tweet) (r : Response)
    (hp : w.heap[p]? = some conn) (hactive : conn.stale = false)
    (hread : (ReadBytes 10 reader).2.2 = true) (hresp : env w.dials = .response r) :
    (readStream.iter lib env p Interf.quiet reader w).status = .running
    ∧ (readStream.iter lib env p Interf.quiet reader w).world.trace
      = w.trace ++ [.readBytes reader false, .dial (conn.url.Host ++ ":80") true,
          .write w.dials conn.request true, .read w.dials (some r)]
    ∧ (r.StatusCode = 200 →
        (readStream.iter lib env p Interf.quiet reader w).reader = r.Body
        ∧ ∀ l rest, r.Body = l ++ 10 :: rest → 10 ∉ l →
            linesRead (readStream.run lib env p [Interf.quiet, Interf.quiet] reader w).world.trace
              = linesRead w.trace ++ [reader, l ++ [10]])
    ∧ (r.StatusCode ≠ 200 →
        (readStream.iter lib env p Interf.quiet reader w).reader = (ReadBytes 10 reader).2.1
        ∧ (readStream.iter lib env p Interf.quiet reader w).reader = []
        ∧ linesRead (readStream.run lib env p [Interf.quiet, Interf.quiet] reader w).world.trace
            = linesRead w.trace ++ [reader, []]) := by
  have hit := iter_response lib env p conn reader w r hp hactive hread hresp
  have hst : (readStream.iter lib env p Interf.quiet reader w).status = .running := by rw [hit]
  have hh : (readStream.iter lib env p Interf.quiet reader w).world.heap[p]?
      = some { conn with clientConn := some w.dials } := by
    rw [hit]; simp [update_get, hp]
  have hlr := iter_failure_linesRead lib env p conn reader w hp hactive hread
  have hrun : readStream.run lib env p [Interf.quiet, Interf.quiet] reader w
      = readStream.run lib env p [Interf.quiet]
          (readStream.iter lib env p Interf.quiet reader w).reader
          (readStream.iter lib env p Interf.quiet reader w).world := by
    rw [run_cons]; simp only [hst]
  have hone : ∀ rd (w1 : World Tweet), linesRead (readStream.run lib env p [Interf.quiet] rd w1).world.trace
      = linesRead (readStream.iter lib env p Interf.quiet rd w1).world.trace := by
    intro rd w1
    rw [run_cons]
    cases hs : (readStream.iter lib env p Interf.quiet rd w1).status <;> simp [hs, readStream.run]
  refine ⟨hst, by rw [hit]; simp, ?_, ?_⟩
  · intro h200
    have hrd : (readStream.iter lib env p Interf.quiet reader w).reader = r.Body := by
      rw [hit]; simp [h200]
    refine ⟨hrd, ?_⟩
    intro l rest hbody hl
    rw [hrun, hone, hrd, hbody,
      iter_line_linesRead lib env p Interf.quiet _ l rest _ rfl hh hactive hl, hlr]
    simp
  · intro h200
    have hrd : (readStream.iter lib env p Interf.quiet reader w).reader = [] := by
      rw [hit]; simp [h200]
    refine ⟨by rw [hrd, ReadBytes_err reader hread], hrd, ?_⟩
    rw [hrun, hone, hrd, iter_failure_linesRead lib env p _ [] _ hh hactive rfl, hlr]
    simp

theorem reconnect_reader_witness :
    (ReadBytes 10 ([] : Bytes)).2.2 = true
    ∧ envOK helloWorldResp.Body trackWorld.dials = .response helloWorldResp
    ∧ (readStream.iter textLib (envOK helloWorldResp.Body) 0 Interf.quiet [] trackWorld).status
      = .running
    ∧ (readStream.iter textLib (envOK helloWorldResp.Body) 0 Interf.quiet []
        trackWorld).world.trace
      = trackWorld.trace ++ [.readBytes [] false, .dial (trackConn.url.Host ++ ":80") true,
          .write trackWorld.dials trackConn.request true,
          .read trackWorld.dials (some helloWorldResp)]
    ∧ (readStream.iter textLib (envOK helloWorldResp.Body) 0 Interf.quiet [] trackWorld).reader
      = helloWorldResp.Body
    ∧ linesRead (readStream.run textLib (envOK helloWorldResp.Body) 0
        [Interf.quiet, Interf.quiet] [] trackWorld).world.trace
      = linesRead trackWorld.trace ++ [[], bytes "\x7b\"text\":\"hello\"\x7d" ++ [10]] :=
  ⟨rfl, rfl,
    (reconnect_reader textLib (envOK helloWorldResp.Body) 0 trackConn [] trackWorld
      helloWorldResp rfl rfl rfl rfl).1,
    (reconnect_reader textLib (envOK helloWorldResp.Body) 0 trackConn [] trackWorld
      helloWorldResp rfl rfl rfl rfl).2.1,
    ((reconnect_reader textLib (envOK helloWorldResp.Body) 0 trackConn [] trackWorld
      helloWorldResp rfl rfl rfl rfl).2.2.1 rfl).1,
    ((reconnect_reader textLib (envOK helloWorldResp.Body) 0 trackConn [] trackWorld
      helloWorldResp rfl rfl rfl rfl).2.2.1 rfl).2 (bytes "\x7b\"text\":\"hello\"\x7d")
      (bytes "\n\x7b\"text\":\"world\"\x7d\n") (by decide) (by decide)⟩

/-! ### `Close` on a client that has a connection -/

/-- On a client whose `conn` points to a connection, `Close` does not fault:
it leaves everything as it is when the connection is already Retiring, marks
it Retiring otherwise, and a second `Close` changes nothing. -/
theorem Close_with_connection (c : Client) (w : World Tweet) (p : Nat) (sc : streamConn)
    (hc : c.conn = some p) (hp : w.heap[p]? = some sc) :
    (sc.stale = true → Client.Close c w = .ok w)
    ∧ (sc.stale = false → Client.Close c w = .ok (w.update p streamConn.Close)
        ∧ (w.update p streamConn.Close).heap[p]? = some { sc with stale := true }
        ∧ Client.Close c (w.update p streamConn.Close) = .ok (w.update p streamConn.Close)) := by
  constructor
  · intro hs
    simp [Client.Close, hc, hp, hs]
  · intro hs
    simp [Client.Close, hc, hp, hs, update_get, streamConn.Close]

end Twitterstream
